import Mathlib

/-!
Shallow embedding of the libtock-rs syscall core (`src/syscalls.rs`) and the
binary-size reporting tool (`tools/print-sizes/src/main.rs`), with theorems
settling the specification claims about them.

Modelling conventions:
* A hardware trap (`asm!("svc N" ...)`) is modelled as a `TrapCall` value
  recording the svc number's operation class and the argument registers.
  The kernel is an abstract function `Kernel : TrapCall → Int` producing the
  signed result word placed in r0.
* Raw function pointers passed to the subscribe trap are drawn from the
  inductive `CbPtr`, whose constructors name the two `extern "C"` functions
  whose addresses the code actually registers.
* Rust stack slots holding a handler value are modelled as a heap
  `Nat → Option CB`: `some v` is a live slot holding `v`, `none` is a slot
  that is moved-out, deallocated, or never allocated.
* Machine integers: usize/u64 are `Nat` (with `% 2 ^ 64` where the code can
  overflow, i.e. in the size-report additions); the signed trap result is
  `Int`.
-/

/-- The ARM registers relevant to the AAPCS caller-saved analysis in
`syscalls.rs`: argument registers r0-r3, the intra-procedure register r12,
and the link register lr. -/
inductive Reg
  | r0
  | r1
  | r2
  | r3
  | r12
  | lr
  deriving DecidableEq, Repr

/-- A transcription of one `asm!` block's constraint lists: svc number,
output registers (`"={rN}"`), input registers (`"{rN}"`), explicitly
clobbered registers, and whether `"memory"` is in the clobber list. -/
structure AsmDecl where
  svc : Nat
  outputs : List Reg
  inputs : List Reg
  clobbers : List Reg
  memClobber : Bool
  deriving DecidableEq, Repr

/-- `yieldk`: `asm!("svc 0" : : : "memory", "r0", "r1", "r2", "r3", "r12", "lr" : "volatile")`. -/
def yieldk_asm : AsmDecl :=
  { svc := 0, outputs := [], inputs := [],
    clobbers := [Reg.r0, Reg.r1, Reg.r2, Reg.r3, Reg.r12, Reg.lr],
    memClobber := true }

/-- `allow`: `asm!("svc 3" : "={r0}"(res) : "{r0}"(major) "{r1}"(minor) "{r2}"(ptr) "{r3}"(len) : "memory" : "volatile")`. -/
def allow_asm : AsmDecl :=
  { svc := 3, outputs := [Reg.r0], inputs := [Reg.r0, Reg.r1, Reg.r2, Reg.r3],
    clobbers := [], memClobber := true }

/-- `allow16`: same constraint lists as `allow` (svc 3, r0 out, r0-r3 in, memory). -/
def allow16_asm : AsmDecl :=
  { svc := 3, outputs := [Reg.r0], inputs := [Reg.r0, Reg.r1, Reg.r2, Reg.r3],
    clobbers := [], memClobber := true }

/-- `subscribe`: `asm!("svc 1" : "={r0}"(res) : "{r0}" "{r1}" "{r2}" "{r3}" : "memory" : "volatile")`. -/
def subscribe_asm : AsmDecl :=
  { svc := 1, outputs := [Reg.r0], inputs := [Reg.r0, Reg.r1, Reg.r2, Reg.r3],
    clobbers := [], memClobber := true }

/-- `command`: `asm!("svc 2" : "={r0}"(res) : "{r0}" "{r1}" "{r2}" "{r3}" : "memory" : "volatile")`. -/
def command_asm : AsmDecl :=
  { svc := 2, outputs := [Reg.r0], inputs := [Reg.r0, Reg.r1, Reg.r2, Reg.r3],
    clobbers := [], memClobber := true }

/-- `memop`: `asm!("svc 4" : "={r0}"(res) : "{r0}"(major) "{r1}"(arg1) : "memory" : "volatile")`. -/
def memop_asm : AsmDecl :=
  { svc := 4, outputs := [Reg.r0], inputs := [Reg.r0, Reg.r1],
    clobbers := [], memClobber := true }

/-- Registers the compiler must treat as destroyed by an asm block: its
outputs plus its explicit clobbers (inputs not restated there are assumed
preserved). -/
def declaredDestroyed (d : AsmDecl) : List Reg :=
  d.outputs ++ d.clobbers

/-- The full conservative caller-saved clobber set named by the spec:
r0-r3, r12 and lr. -/
def fullClobberSet : List Reg :=
  [Reg.r0, Reg.r1, Reg.r2, Reg.r3, Reg.r12, Reg.lr]

/-- All trap-gateway asm declarations in `syscalls.rs`. -/
def gatewayDecls : List AsmDecl :=
  [yieldk_asm, allow_asm, allow16_asm, subscribe_asm, command_asm, memop_asm]

/-- The raw function pointers the code ever hands to the subscribe trap:
the generic trampoline `c_callback` of `subscribe_new`, and the
`noop_callback` defined inside `unsubscribe`. -/
inductive CbPtr
  | c_callback_ptr
  | noop_callback_ptr
  deriving DecidableEq, Repr

/-- One hardware trap, by operation class, carrying the argument registers
the corresponding asm block loads. -/
inductive TrapCall
  | yieldT
  | subscribeT (major minor : Nat) (cb : CbPtr) (ud : Nat)
  | commandT (major minor arg1 arg2 : Nat)
  | allowT (major minor ptr len : Nat)
  | memopT (major arg1 : Nat)
  deriving DecidableEq, Repr

/-- The svc immediate each trap class uses in `syscalls.rs`. -/
def svcNum : TrapCall → Nat
  | TrapCall.yieldT => 0
  | TrapCall.subscribeT _ _ _ _ => 1
  | TrapCall.commandT _ _ _ _ => 2
  | TrapCall.allowT _ _ _ _ => 3
  | TrapCall.memopT _ _ => 4

/-- The kernel, abstractly: a signed result word for every trap. -/
def Kernel : Type := TrapCall → Int

/-- `allow(major, minor, slice)`: one svc 3 trap with r2 = `slice.as_ptr()`
(the abstract address `ptr`) and r3 = `slice.len()`; returns the kernel's
r0 unchanged.  The second component is the trace of traps issued. -/
def allow (k : Kernel) (major minor : Nat) (ptr : Nat) (slice : List Nat) :
    Int × List TrapCall :=
  let t := TrapCall.allowT major minor ptr slice.length
  (k t, [t])

/-- `allow16(major, minor, slice)`: one svc 3 trap with r3 = `slice.len()*2`
for a `&[u16]` slice. -/
def allow16 (k : Kernel) (major minor : Nat) (ptr : Nat) (slice : List Nat) :
    Int × List TrapCall :=
  let t := TrapCall.allowT major minor ptr (slice.length * 2)
  (k t, [t])

/-- `subscribe(major, minor, cb, ud)`: one svc 1 trap. -/
def subscribe (k : Kernel) (major minor : Nat) (cb : CbPtr) (ud : Nat) :
    Int × List TrapCall :=
  let t := TrapCall.subscribeT major minor cb ud
  (k t, [t])

/-- `command(major, minor, arg1, arg2)`: one svc 2 trap. -/
def command (k : Kernel) (major minor arg1 arg2 : Nat) :
    Int × List TrapCall :=
  let t := TrapCall.commandT major minor arg1 arg2
  (k t, [t])

/-- `memop(major, arg1)`: one svc 4 trap. -/
def memop (k : Kernel) (major arg1 : Nat) : Int × List TrapCall :=
  let t := TrapCall.memopT major arg1
  (k t, [t])

/-- `unsubscribe(major, minor)`: `subscribe(major, minor, noop_callback, 0)`. -/
def unsubscribe (k : Kernel) (major minor : Nat) : Int × List TrapCall :=
  subscribe k major minor CbPtr.noop_callback_ptr 0

/-- Write one heap slot. -/
def writeLoc {CB : Type} (h : Nat → Option CB) (l : Nat) (v : Option CB) :
    Nat → Option CB :=
  fun x => if x = l then v else h x

/-- The observable outcome of `subscribe_new`: the traps it issued, the
user-data word it registered, and the location of the handler storage owned
by the `Subscription` it returns. -/
structure SubNewOut where
  trace : List TrapCall
  registered_ud : Nat
  handler_loc : Nat
  deriving DecidableEq, Repr

/-- `subscribe_new(callback)`, with Rust places made explicit.

The by-value parameter `mut callback: CB` lives in a slot `paramLoc` of
`subscribe_new`'s own stack frame.  The code passes
`&mut callback as *mut CB as usize` — i.e. `paramLoc` — as the user-data
word of the subscribe trap, discards the trap's result, then builds
`Subscription { callback, .. }`, which MOVES the handler out of `paramLoc`
into the returned value's storage `retLoc`; when `subscribe_new` returns,
its frame (hence `paramLoc`) is gone.  `driver`/`subNum` stand for
`CB::driver_number()`/`CB::subscribe_number()`. -/
def subscribe_new {CB : Type} (k : Kernel) (driver subNum : Nat) (cb : CB)
    (paramLoc retLoc : Nat) (h0 : Nat → Option CB) :
    SubNewOut × (Nat → Option CB) :=
  -- the parameter slot now holds the handler value
  let h1 := writeLoc h0 paramLoc (some cb)
  -- subscribe(CB::driver_number(), CB::subscribe_number(), c_callback, &mut callback as usize);
  -- the Int result of `r` is dropped by the expression statement
  let r := subscribe k driver subNum CbPtr.c_callback_ptr paramLoc
  -- Subscription { callback, phantom_data }: the handler is moved out of the
  -- parameter slot into the returned Subscription's storage; returning pops
  -- subscribe_new's frame, so the parameter slot is dead afterwards
  let h2 := writeLoc (writeLoc h1 paramLoc none) retLoc (h1 paramLoc)
  ({ trace := r.2, registered_ud := paramLoc, handler_loc := retLoc }, h2)

/-- The trampoline `c_callback(arg0, arg1, arg2, userdata)`: reads the
handler out of the slot named by `userdata`
(`let callback = unsafe { &mut *(userdata as *mut CB) }`) and runs
`A::convert(arg0, arg1, arg2, callback)`, modelled as the pure update
`convert : Nat → Nat → Nat → CB → CB` applied in place.  Reading a dead
slot is undefined behaviour in the source; the model leaves the heap
unchanged in that case. -/
def c_callback {CB : Type} (convert : Nat → Nat → Nat → CB → CB)
    (h : Nat → Option CB) (arg0 arg1 arg2 userdata : Nat) :
    Nat → Option CB :=
  match h userdata with
  | some v => writeLoc h userdata (some (convert arg0 arg1 arg2 v))
  | none => h

/-- Events of destroying a `Subscription`: traps issued by the `Drop` impl,
then the compiler-generated release of the `callback` field's storage. -/
inductive DropEv
  | trap (t : TrapCall)
  | free_handler_storage
  deriving DecidableEq, Repr

/-- Destruction of a `Subscription<A, CB>`: Rust runs `drop(&mut self)` —
which is `unsubscribe(CB::driver_number(), CB::subscribe_number())` — and
then releases the fields' storage.  Rust runs this sequence once on every
exit path (scope exit, early return, unwinding). -/
def subscription_drop (k : Kernel) (driver subNum : Nat) : List DropEv :=
  (unsubscribe k driver subNum).2.map DropEv.trap ++ [DropEv.free_handler_storage]

/-- `yieldk_for(cond)`: `while !cond() { yieldk(); }`.

The ambient process state mutated by callbacks during a yield is `S`;
`cond` reads it and `step` is the state change effected by one `yieldk()`
trap.  `fuel` bounds the number of loop iterations so the function is
total; the result is `none` when the loop has not exited within `fuel`
iterations, otherwise the trace of yield traps issued and the state at
exit. -/
def yieldk_for {S : Type} (cond : S → Bool) (step : S → S) :
    Nat → S → Option (List TrapCall × S)
  | 0, s => if cond s then some ([], s) else none
  | fuel + 1, s =>
    if cond s then some ([], s)
    else (yieldk_for cond step fuel (step s)).map
      (fun p => (TrapCall.yieldT :: p.1, p.2))

/-- `ARCHITECTURES` from `print-sizes/src/main.rs`. -/
def ARCHITECTURES : List String :=
  ["riscv32imc-unknown-none-elf", "thumbv7em-none-eabi"]

/-- `struct ElfSizes { bss, data, rodata, text : u64 }`. -/
structure ElfSizes where
  bss : Nat
  data : Nat
  rodata : Nat
  text : Nat
  deriving DecidableEq, Repr

/-- `impl Add for &ElfSizes`: componentwise u64 addition (wrapping at
2^64, as released builds do). -/
def addSizes (a b : ElfSizes) : ElfSizes :=
  { bss := (a.bss + b.bss) % 2 ^ 64
    data := (a.data + b.data) % 2 ^ 64
    rodata := (a.rodata + b.rodata) % 2 ^ 64
    text := (a.text + b.text) % 2 ^ 64 }

/-- One ELF section as `get_sizes` sees it: `section.shdr.name` and
`section.shdr.size`. -/
structure ElfSection where
  name : String
  size : Nat
  deriving DecidableEq, Repr

/-- The body of `get_sizes`'s `for` loop: the `match` on the section name,
updating the running `sizes`. -/
def get_sizes_step (sizes : ElfSizes) (sec : ElfSection) : ElfSizes :=
  if sec.name = ".bss" then { sizes with bss := sec.size }
  else if sec.name = ".data" then { sizes with data := sec.size }
  else if sec.name = ".rodata" then { sizes with rodata := sec.size }
  else if sec.name = ".text" then { sizes with text := sec.size }
  else sizes

/-- `get_sizes`: fold the name-match over the file's sections in order,
starting from all-zero sizes.  The file itself is abstracted to its section
list (opening the ELF is I/O). -/
def get_sizes (sections : List ElfSection) : ElfSizes :=
  sections.foldl get_sizes_step { bss := 0, data := 0, rodata := 0, text := 0 }

/-- `struct ExampleData { name, arch, sizes }`. -/
structure ExampleData where
  name : String
  arch : String
  sizes : ElfSizes
  deriving DecidableEq, Repr

/-- The per-architecture totals loop in `main`: start from all-zero
`ElfSizes` and fold `&totals + &data.sizes` over the examples whose `arch`
matches. -/
def archTotal (example_data : List ExampleData) (arch : String) : ElfSizes :=
  (example_data.filter (fun d => d.arch == arch)).foldl
    (fun totals d => addSizes totals d.sizes)
    { bss := 0, data := 0, rodata := 0, text := 0 }

/-- One line printed by `main`, by its three `println!` sites, carrying the
values interpolated (the fixed captions and padding are elided). -/
inductive OutLine
  | header (name_width arch_width section_width : Nat)
  | row (name arch : String) (bss data text : Nat)
  | total (arch : String) (bss data text : Nat)
  deriving DecidableEq, Repr

/-- `main` after `find_examples`/`get_sizes` (filesystem I/O abstracted to
the resulting `example_data` list): computes `arch_width` as the maximum
architecture-name length — `.max().expect("No examples found")`, which
panics on an empty list — then prints the header, one row per example, and
one total per architecture.  Result: the lines printed before any panic,
and the panic message if one occurred. -/
def main_model (example_data : List ExampleData) :
    List OutLine × Option String :=
  let name_width := 20
  let section_width := 7
  match (example_data.map (fun a => a.arch.length)).max? with
  | none => ([], some "No examples found")
  | some arch_width =>
    let header := OutLine.header name_width arch_width section_width
    let rows := example_data.map
      (fun d => OutLine.row d.name d.arch d.sizes.bss d.sizes.data d.sizes.text)
    let totals := ARCHITECTURES.map
      (fun arch =>
        let t := archTotal example_data arch
        OutLine.total arch t.bss t.data t.text)
    (header :: (rows ++ totals), none)

/-- Last element of a list, or `d` when the list is empty. -/
def lastD : List Nat → Nat → Nat
  | [], d => d
  | x :: xs, _ => lastD xs x

/-- Modelled from the claim's wording, for comparison with `get_sizes`:
the size of the last section in file order bearing exactly the given name,
and 0 when no section bears it. -/
def lastSizeNamed (name : String) (sections : List ElfSection) : Nat :=
  lastD ((sections.filter (fun s => s.name == name)).map (fun s => s.size)) 0

/-- C1: refuted by the code — `subscribe_new` passes the address of its own
local parameter slot (`&mut callback`) as the user-data word, then moves the
handler into the returned `Subscription`.  At the concrete input (handler
`42`, driver 1, subscribe-number 2, parameter slot 0, returned storage 1)
the registered user-data word is 0, the returned `Subscription`'s handler
storage is 1, and slot 0 is already dead when `subscribe_new` returns, so
the registered address does not stay valid while the `Subscription` is
alive. -/
theorem subscribe_new_registers_dangling_local :
    (subscribe_new (fun _ => 0 : Kernel) 1 2 (42 : Nat) 0 1 (fun _ => none)).1.trace
        = [TrapCall.subscribeT 1 2 CbPtr.c_callback_ptr 0] ∧
    (subscribe_new (fun _ => 0 : Kernel) 1 2 (42 : Nat) 0 1 (fun _ => none)).1.registered_ud = 0 ∧
    (subscribe_new (fun _ => 0 : Kernel) 1 2 (42 : Nat) 0 1 (fun _ => none)).1.handler_loc = 1 ∧
    (subscribe_new (fun _ => 0 : Kernel) 1 2 (42 : Nat) 0 1 (fun _ => none)).2 0 = none ∧
    (subscribe_new (fun _ => 0 : Kernel) 1 2 (42 : Nat) 0 1 (fun _ => none)).2 1 = some 42 :=
  ⟨rfl, rfl, rfl, rfl, rfl⟩

/-- C2 counterexample: it is false that every trap-gateway asm block
declares the full conservative clobber set r0-r3, r12, lr as destroyed —
`allow` (and `allow16`, `subscribe`, `command`, `memop`) declares only r0
as written. -/
theorem gateway_clobber_claim_refuted :
    gatewayDecls.all
      (fun d => fullClobberSet.all (fun r => (declaredDestroyed d).contains r))
      = false := by
  decide

/-- C2, amended: only `yieldk` declares the full conservative clobber set
(r0-r3, r12, lr); `allow`, `allow16`, `subscribe`, `command` and `memop`
declare only the result register r0 as written, plus a memory clobber,
leaving r1-r3, r12 and lr undeclared as destroyed. -/
theorem gateway_clobber_sets :
    fullClobberSet.all (fun r => (declaredDestroyed yieldk_asm).contains r) = true ∧
    declaredDestroyed allow_asm = [Reg.r0] ∧
    declaredDestroyed allow16_asm = [Reg.r0] ∧
    declaredDestroyed subscribe_asm = [Reg.r0] ∧
    declaredDestroyed command_asm = [Reg.r0] ∧
    declaredDestroyed memop_asm = [Reg.r0] ∧
    allow_asm.memClobber = true ∧
    allow16_asm.memClobber = true ∧
    subscribe_asm.memClobber = true ∧
    command_asm.memClobber = true ∧
    memop_asm.memClobber = true := by
  decide

/-- C3: destroying a `Subscription` produces exactly this event sequence —
one subscribe trap carrying the no-op trampoline and user-data 0 (the
unsubscribe trap for the handle's descriptor), followed by the release of
the handler's storage; in particular exactly one trap is issued and it
strictly precedes the storage release, on every destruction path (Rust runs
the same drop glue on scope exit, early return and unwinding). -/
theorem subscription_drop_unsubscribes_once_before_free
    (k : Kernel) (driver subNum : Nat) :
    subscription_drop k driver subNum =
      [DropEv.trap (TrapCall.subscribeT driver subNum CbPtr.noop_callback_ptr 0),
       DropEv.free_handler_storage] ∧
    (subscription_drop k driver subNum).countP
      (fun e => match e with | DropEv.trap _ => true | _ => false) = 1 :=
  ⟨rfl, rfl⟩

/-- C6: `allow` issues one trap whose fourth argument register is the byte
slice's length, `allow16` one whose fourth argument register is the u16
slice's element count times 2, and both traps use the same allow operation
code (svc 3). -/
theorem allow_length_fourth_arg (k : Kernel) (major minor ptr : Nat)
    (s8 s16 : List Nat) :
    (allow k major minor ptr s8).2
        = [TrapCall.allowT major minor ptr s8.length] ∧
    (allow16 k major minor ptr s16).2
        = [TrapCall.allowT major minor ptr (s16.length * 2)] ∧
    svcNum (TrapCall.allowT major minor ptr s8.length) = 3 ∧
    svcNum (TrapCall.allowT major minor ptr (s16.length * 2)) = 3 :=
  ⟨rfl, rfl, rfl, rfl⟩

/-- C7: each of `allow`, `allow16`, `subscribe`, `command` and `memop`
returns the kernel's result word for its trap unchanged and issues exactly
that one trap (no retry); and `subscribe_new`'s entire outcome — traps
issued, registered user-data, returned `Subscription`, final heap — is the
same under any two kernels, i.e. the subscribe trap's result is discarded
and the `Subscription` is constructed regardless of failure. -/
theorem trap_result_passthrough_no_retry {CB : Type} (k k2 : Kernel)
    (major minor ptr arg1 arg2 ud : Nat) (s8 s16 : List Nat) (cb : CbPtr)
    (driver subNum paramLoc retLoc : Nat) (hnd : CB) (h0 : Nat → Option CB) :
    allow k major minor ptr s8
        = (k (TrapCall.allowT major minor ptr s8.length),
           [TrapCall.allowT major minor ptr s8.length]) ∧
    allow16 k major minor ptr s16
        = (k (TrapCall.allowT major minor ptr (s16.length * 2)),
           [TrapCall.allowT major minor ptr (s16.length * 2)]) ∧
    subscribe k major minor cb ud
        = (k (TrapCall.subscribeT major minor cb ud),
           [TrapCall.subscribeT major minor cb ud]) ∧
    command k major minor arg1 arg2
        = (k (TrapCall.commandT major minor arg1 arg2),
           [TrapCall.commandT major minor arg1 arg2]) ∧
    memop k major arg1
        = (k (TrapCall.memopT major arg1), [TrapCall.memopT major arg1]) ∧
    subscribe_new k driver subNum hnd paramLoc retLoc h0
        = subscribe_new k2 driver subNum hnd paramLoc retLoc h0 :=
  ⟨rfl, rfl, rfl, rfl, rfl, rfl⟩

/-- C10: on an empty example list, the size-report main panics with
"No examples found" (the `expect` on the empty maximum) having printed no
lines at all — in particular no table header. -/
theorem main_model_empty_panics_before_header :
    main_model [] = ([], some "No examples found") :=
  rfl

/-- C4: when the user-data word of a delivery names a live handler slot,
the trampoline updates exactly that slot by applying the Argument Converter
to precisely the first three delivered words and the handler read from the
slot; and the converted handler it stores is the same for two deliveries
that differ only in which address holds the (same) handler value — the
user-data word enters only as an address, never as a domain value. -/
theorem c_callback_applies_convert_to_first_three {CB : Type}
    (convert : Nat → Nat → Nat → CB → CB) (h h2 : Nat → Option CB)
    (arg0 arg1 arg2 ud ud2 : Nat) (v : CB)
    (hv : h ud = some v) (hv2 : h2 ud2 = some v) :
    c_callback convert h arg0 arg1 arg2 ud
        = writeLoc h ud (some (convert arg0 arg1 arg2 v)) ∧
    c_callback convert h arg0 arg1 arg2 ud ud
        = c_callback convert h2 arg0 arg1 arg2 ud2 ud2 := by
  constructor
  · simp [c_callback, hv]
  · simp [c_callback, hv, hv2, writeLoc]

/-- Witness for the C4 theorem at a concrete input: handler value 10 at
address 5 (resp. 7), arguments (1, 2, 3), converter summing its inputs. -/
theorem c_callback_applies_convert_witness :
    c_callback (fun a b c w => a + b + c + w)
        (fun x => if x = 5 then some 10 else none) 1 2 3 5
      = writeLoc (fun x => if x = 5 then some 10 else none) 5 (some 16) ∧
    c_callback (fun a b c w => a + b + c + w)
        (fun x => if x = 5 then some 10 else none) 1 2 3 5 5
      = c_callback (fun a b c w => a + b + c + w)
        (fun x => if x = 7 then some 10 else none) 1 2 3 7 7 :=
  c_callback_applies_convert_to_first_three
    (fun a b c w => a + b + c + w)
    (fun x => if x = 5 then some 10 else none)
    (fun x => if x = 7 then some 10 else none)
    1 2 3 5 7 10 rfl rfl

/-- C5: if the predicate is false on the first `n` iterates of the state
and true on the n-th (its first true evaluation), then `yieldk_for`, given
enough fuel, returns at that first true evaluation having issued exactly
one yield trap per false evaluation — `n` traps in all, and zero traps when
the predicate is already true (`n = 0`). -/
theorem yieldk_for_stops_at_first_true {S : Type} (cond : S → Bool)
    (step : S → S) (s : S) (n fuel : Nat) (hfuel : n ≤ fuel)
    (hfalse : ∀ k, k < n → cond (step^[k] s) = false)
    (htrue : cond (step^[n] s) = true) :
    yieldk_for cond step fuel s
      = some (List.replicate n TrapCall.yieldT, step^[n] s) := by
  induction n generalizing s fuel with
  | zero =>
    simp only [Function.iterate_zero, id] at htrue ⊢
    cases fuel with
    | zero => simp [yieldk_for, htrue]
    | succ m => simp [yieldk_for, htrue]
  | succ n ih =>
    have h0 : cond s = false := by
      simpa using hfalse 0 (Nat.succ_pos n)
    cases fuel with
    | zero => exact (Nat.not_succ_le_zero n hfuel).elim
    | succ m =>
      have hrec := ih (step s) m (Nat.le_of_succ_le_succ hfuel)
        (fun k hk => by
          simpa [Function.iterate_succ_apply] using hfalse (k + 1) (Nat.succ_lt_succ hk))
        (by simpa [Function.iterate_succ_apply] using htrue)
      simp [yieldk_for, h0, hrec, List.replicate_succ, Function.iterate_succ_apply]

/-- Witness for the C5 theorem at a concrete input: counting state starting
at 0, stepped by +1 per yield, predicate "state ≥ 2": two false evaluations,
two yield traps, exit in state 2. -/
theorem yieldk_for_stops_witness :
    yieldk_for (fun s => decide (2 ≤ s)) (fun s => s + 1) 3 0
      = some (List.replicate 2 TrapCall.yieldT, (fun s => s + 1)^[2] 0) :=
  yieldk_for_stops_at_first_true (fun s => decide (2 ≤ s)) (fun s => s + 1)
    0 2 3 (by decide) (by decide) (by decide)

/-- Folding wrapping u64 addition of a projection over a list, starting
below 2^64, computes the wrapped sum of the projections. -/
theorem foldl_wrap_add_map {α : Type} (f : α → Nat) (l : List α) (z : Nat)
    (hz : z < 2 ^ 64) :
    l.foldl (fun a d => (a + f d) % 2 ^ 64) z = (z + (l.map f).sum) % 2 ^ 64 := by
  induction l generalizing z with
  | nil => simpa using (Nat.mod_eq_of_lt hz).symm
  | cons x t ih =>
    rw [List.foldl_cons, ih ((z + f x) % 2 ^ 64) (Nat.mod_lt _ (by positivity)),
      Nat.mod_add_mod, List.map_cons, List.sum_cons, Nat.add_assoc]

/-- The `bss` component of the totals fold is a fold of wrapping addition
over the `bss` components. -/
theorem foldl_addSizes_bss (l : List ExampleData) (z : ElfSizes) :
    (l.foldl (fun totals d => addSizes totals d.sizes) z).bss
        = l.foldl (fun a d => (a + d.sizes.bss) % 2 ^ 64) z.bss := by
  induction l generalizing z with
  | nil => rfl
  | cons x t ih => rw [List.foldl_cons, List.foldl_cons, ih]; rfl

/-- The `data` component of the totals fold is a fold of wrapping addition
over the `data` components. -/
theorem foldl_addSizes_data (l : List ExampleData) (z : ElfSizes) :
    (l.foldl (fun totals d => addSizes totals d.sizes) z).data
        = l.foldl (fun a d => (a + d.sizes.data) % 2 ^ 64) z.data := by
  induction l generalizing z with
  | nil => rfl
  | cons x t ih => rw [List.foldl_cons, List.foldl_cons, ih]; rfl

/-- The `text` component of the totals fold is a fold of wrapping addition
over the `text` components. -/
theorem foldl_addSizes_text (l : List ExampleData) (z : ElfSizes) :
    (l.foldl (fun totals d => addSizes totals d.sizes) z).text
        = l.foldl (fun a d => (a + d.sizes.text) % 2 ^ 64) z.text := by
  induction l generalizing z with
  | nil => rfl
  | cons x t ih => rw [List.foldl_cons, List.foldl_cons, ih]; rfl

/-- C8: for every architecture string and every example list, as long as
the per-architecture componentwise sums do not exceed the u64 range, the
architecture's total row carries, for each of bss, data and text, exactly
the sum of that section size over the examples whose architecture matches,
starting from zero. -/
theorem arch_total_componentwise_sum (example_data : List ExampleData)
    (arch : String)
    (hb : ((example_data.filter (fun d => d.arch == arch)).map
        (fun d => d.sizes.bss)).sum < 2 ^ 64)
    (hd : ((example_data.filter (fun d => d.arch == arch)).map
        (fun d => d.sizes.data)).sum < 2 ^ 64)
    (ht : ((example_data.filter (fun d => d.arch == arch)).map
        (fun d => d.sizes.text)).sum < 2 ^ 64) :
    (archTotal example_data arch).bss
        = ((example_data.filter (fun d => d.arch == arch)).map
            (fun d => d.sizes.bss)).sum ∧
    (archTotal example_data arch).data
        = ((example_data.filter (fun d => d.arch == arch)).map
            (fun d => d.sizes.data)).sum ∧
    (archTotal example_data arch).text
        = ((example_data.filter (fun d => d.arch == arch)).map
            (fun d => d.sizes.text)).sum := by
  refine ⟨?_, ?_, ?_⟩
  · rw [archTotal, foldl_addSizes_bss, foldl_wrap_add_map _ _ _ (by decide)]
    simpa using Nat.mod_eq_of_lt hb
  · rw [archTotal, foldl_addSizes_data, foldl_wrap_add_map _ _ _ (by decide)]
    simpa using Nat.mod_eq_of_lt hd
  · rw [archTotal, foldl_addSizes_text, foldl_wrap_add_map _ _ _ (by decide)]
    simpa using Nat.mod_eq_of_lt ht

/-- Witness for the C8 theorem at a concrete input: three examples, two of
architecture "a1", totals for "a1" are the componentwise sums 101/202/404. -/
theorem arch_total_componentwise_sum_witness :
    (archTotal
        ([⟨"x", "a1", ⟨1, 2, 3, 4⟩⟩, ⟨"y", "a2", ⟨10, 20, 30, 40⟩⟩,
          ⟨"z", "a1", ⟨100, 200, 300, 400⟩⟩] : List ExampleData) "a1").bss
      = ((([⟨"x", "a1", ⟨1, 2, 3, 4⟩⟩, ⟨"y", "a2", ⟨10, 20, 30, 40⟩⟩,
            ⟨"z", "a1", ⟨100, 200, 300, 400⟩⟩] : List ExampleData).filter
            (fun d => d.arch == "a1")).map (fun d => d.sizes.bss)).sum ∧
    (archTotal
        ([⟨"x", "a1", ⟨1, 2, 3, 4⟩⟩, ⟨"y", "a2", ⟨10, 20, 30, 40⟩⟩,
          ⟨"z", "a1", ⟨100, 200, 300, 400⟩⟩] : List ExampleData) "a1").data
      = ((([⟨"x", "a1", ⟨1, 2, 3, 4⟩⟩, ⟨"y", "a2", ⟨10, 20, 30, 40⟩⟩,
            ⟨"z", "a1", ⟨100, 200, 300, 400⟩⟩] : List ExampleData).filter
            (fun d => d.arch == "a1")).map (fun d => d.sizes.data)).sum ∧
    (archTotal
        ([⟨"x", "a1", ⟨1, 2, 3, 4⟩⟩, ⟨"y", "a2", ⟨10, 20, 30, 40⟩⟩,
          ⟨"z", "a1", ⟨100, 200, 300, 400⟩⟩] : List ExampleData) "a1").text
      = ((([⟨"x", "a1", ⟨1, 2, 3, 4⟩⟩, ⟨"y", "a2", ⟨10, 20, 30, 40⟩⟩,
            ⟨"z", "a1", ⟨100, 200, 300, 400⟩⟩] : List ExampleData).filter
            (fun d => d.arch == "a1")).map (fun d => d.sizes.text)).sum :=
  arch_total_componentwise_sum
    ([⟨"x", "a1", ⟨1, 2, 3, 4⟩⟩, ⟨"y", "a2", ⟨10, 20, 30, 40⟩⟩,
      ⟨"z", "a1", ⟨100, 200, 300, 400⟩⟩] : List ExampleData)
    "a1" (by decide) (by decide) (by decide)

/-- The `bss` component after one step of `get_sizes`'s name match. -/
theorem get_sizes_step_bss (acc : ElfSizes) (sec : ElfSection) :
    (get_sizes_step acc sec).bss
        = if sec.name = ".bss" then sec.size else acc.bss := by
  simp only [get_sizes_step]
  split_ifs <;> rfl

/-- The `data` component after one step of `get_sizes`'s name match. -/
theorem get_sizes_step_data (acc : ElfSizes) (sec : ElfSection) :
    (get_sizes_step acc sec).data
        = if sec.name = ".data" then sec.size else acc.data := by
  simp only [get_sizes_step]
  split_ifs <;> first | rfl | simp_all

/-- The `rodata` component after one step of `get_sizes`'s name match. -/
theorem get_sizes_step_rodata (acc : ElfSizes) (sec : ElfSection) :
    (get_sizes_step acc sec).rodata
        = if sec.name = ".rodata" then sec.size else acc.rodata := by
  simp only [get_sizes_step]
  split_ifs <;> first | rfl | simp_all

/-- The `text` component after one step of `get_sizes`'s name match. -/
theorem get_sizes_step_text (acc : ElfSizes) (sec : ElfSection) :
    (get_sizes_step acc sec).text
        = if sec.name = ".text" then sec.size else acc.text := by
  simp only [get_sizes_step]
  split_ifs <;> first | rfl | simp_all

/-- Folding `get_sizes`'s loop over a section list leaves, in the `bss`
component, the last `.bss` section's size (or the accumulator's). -/
theorem get_sizes_foldl_bss (sections : List ElfSection) (acc : ElfSizes) :
    (sections.foldl get_sizes_step acc).bss
        = lastD ((sections.filter (fun s => s.name == ".bss")).map
            (fun s => s.size)) acc.bss := by
  induction sections generalizing acc with
  | nil => rfl
  | cons sec t ih =>
    rw [List.foldl_cons, ih, get_sizes_step_bss]
    by_cases h : sec.name = ".bss"
    · rw [if_pos h, List.filter_cons_of_pos (by simp [h]), List.map_cons]
      rfl
    · rw [if_neg h, List.filter_cons_of_neg (by simp [h])]

/-- Folding `get_sizes`'s loop over a section list leaves, in the `data`
component, the last `.data` section's size (or the accumulator's). -/
theorem get_sizes_foldl_data (sections : List ElfSection) (acc : ElfSizes) :
    (sections.foldl get_sizes_step acc).data
        = lastD ((sections.filter (fun s => s.name == ".data")).map
            (fun s => s.size)) acc.data := by
  induction sections generalizing acc with
  | nil => rfl
  | cons sec t ih =>
    rw [List.foldl_cons, ih, get_sizes_step_data]
    by_cases h : sec.name = ".data"
    · rw [if_pos h, List.filter_cons_of_pos (by simp [h]), List.map_cons]
      rfl
    · rw [if_neg h, List.filter_cons_of_neg (by simp [h])]

/-- Folding `get_sizes`'s loop over a section list leaves, in the `rodata`
component, the last `.rodata` section's size (or the accumulator's). -/
theorem get_sizes_foldl_rodata (sections : List ElfSection) (acc : ElfSizes) :
    (sections.foldl get_sizes_step acc).rodata
        = lastD ((sections.filter (fun s => s.name == ".rodata")).map
            (fun s => s.size)) acc.rodata := by
  induction sections generalizing acc with
  | nil => rfl
  | cons sec t ih =>
    rw [List.foldl_cons, ih, get_sizes_step_rodata]
    by_cases h : sec.name = ".rodata"
    · rw [if_pos h, List.filter_cons_of_pos (by simp [h]), List.map_cons]
      rfl
    · rw [if_neg h, List.filter_cons_of_neg (by simp [h])]

/-- Folding `get_sizes`'s loop over a section list leaves, in the `text`
component, the last `.text` section's size (or the accumulator's). -/
theorem get_sizes_foldl_text (sections : List ElfSection) (acc : ElfSizes) :
    (sections.foldl get_sizes_step acc).text
        = lastD ((sections.filter (fun s => s.name == ".text")).map
            (fun s => s.size)) acc.text := by
  induction sections generalizing acc with
  | nil => rfl
  | cons sec t ih =>
    rw [List.foldl_cons, ih, get_sizes_step_text]
    by_cases h : sec.name = ".text"
    · rw [if_pos h, List.filter_cons_of_pos (by simp [h]), List.map_cons]
      rfl
    · rw [if_neg h, List.filter_cons_of_neg (by simp [h])]

/-- C9: for every section list, `get_sizes` returns, in each of its four
components, the size of the last section in file order bearing exactly the
corresponding name — `.bss`, `.data`, `.rodata`, `.text` — and 0 when no
section bears it (same-named sections overwrite, they do not accumulate). -/
theorem get_sizes_last_section_named (sections : List ElfSection) :
    (get_sizes sections).bss = lastSizeNamed ".bss" sections ∧
    (get_sizes sections).data = lastSizeNamed ".data" sections ∧
    (get_sizes sections).rodata = lastSizeNamed ".rodata" sections ∧
    (get_sizes sections).text = lastSizeNamed ".text" sections := by
  refine ⟨?_, ?_, ?_, ?_⟩
  · rw [get_sizes, get_sizes_foldl_bss]; rfl
  · rw [get_sizes, get_sizes_foldl_data]; rfl
  · rw [get_sizes, get_sizes_foldl_rodata]; rfl
  · rw [get_sizes, get_sizes_foldl_text]; rfl
